import Mathlib

/-!
Shallow embedding of `src/polygonrpc.py` (module `polygonrpc`), the core of the
DeNetTest repository: an ERC20 read-only query service over a chain RPC endpoint
and a block-explorer HTTP API.

Modelling conventions:
* Network outcomes are oracles: a `Chain` structure holds, for each contract view
  function, the outcome (`Except String _`) that awaiting its call would produce,
  and the explorer HTTP layer is a concrete `ExplorerResponse` value per request.
* The single piece of mutable state, the module-level `_decimals_cache`, is an
  explicit `ChainState` threaded through the operations; each operation also
  returns the list of contract calls it actually issued (its network trace).
* Python floats are modelled as `ℚ` (`balance / (10 ** decimals)` is exact
  rational division here); Python `int` is `Int`/`Nat`.
* Raising an exception is `Except.error`; `asyncio.gather(..., return_exceptions=True)`
  delivers the per-task outcomes in task order, which the embedding reflects by
  evaluating the per-element oracle at each list position.
-/

deriving instance DecidableEq for Except

namespace DeNet

/-- Contract view calls that `polygonrpc.py` can issue over the RPC endpoint. -/
inductive ContractCall where
  | decimalsCall
  | balanceOfCall (addr : String)
  | nameCall
  | symbolCall
  | totalSupplyCall
deriving DecidableEq, Repr

/-- The module-level mutable state of `polygonrpc.py`: the global `_decimals_cache`,
which is `None` (`none`) until the first successful `decimals()` call. -/
structure ChainState where
  decimalsCache : Option Nat
deriving DecidableEq, Repr

/-- Oracle for the outcomes of the external calls the module makes: for every
contract view function the result awaiting it would produce, plus the two
pure web3 helpers `is_address` and `to_checksum_address` (the latter raises on
malformed input, hence `Except`). -/
structure Chain where
  is_address : String → Bool
  checksum : String → Except String String
  decimalsResult : Except String Nat
  balanceOf : String → Except String Int
  nameResult : Except String String
  symbolResult : Except String String
  totalSupplyResult : Except String Int

/-- `get_decimals` (lines 75-80): return the cached decimals if present,
otherwise await `contract.functions.decimals().call()` and cache the result.
A raised exception leaves the cache untouched. -/
def get_decimals (c : Chain) (st : ChainState) :
    Except String Nat × ChainState × List ContractCall :=
  match st.decimalsCache with
  | some d => (Except.ok d, st, [])
  | none =>
    match c.decimalsResult with
    | Except.ok d => (Except.ok d, ⟨some d⟩, [ContractCall.decimalsCall])
    | Except.error e => (Except.error e, st, [ContractCall.decimalsCall])

/-- `get_balance` (lines 82-88): reject malformed addresses before any network
call, then await `balanceOf`, then `get_decimals`, and divide. -/
def get_balance (c : Chain) (address : String) (st : ChainState) :
    Except String ℚ × ChainState × List ContractCall :=
  if c.is_address address = true then
    match c.checksum address with
    | Except.error e => (Except.error e, st, [])
    | Except.ok ca =>
      match c.balanceOf ca with
      | Except.error e => (Except.error e, st, [ContractCall.balanceOfCall ca])
      | Except.ok b =>
        let gd := get_decimals c st
        match gd.1 with
        | Except.ok d =>
          (Except.ok ((b : ℚ) / 10 ^ d), gd.2.1, ContractCall.balanceOfCall ca :: gd.2.2)
        | Except.error e => (Except.error e, gd.2.1, ContractCall.balanceOfCall ca :: gd.2.2)
  else (Except.error "Invalid address", st, [])

/-- The eager part of the task-list comprehension in `get_balance_batch`
(line 93): `Web3.to_checksum_address(addr)` is evaluated synchronously for each
address in order, and the first failure propagates out of the whole function. -/
def mapExcept (f : String → Except String String) : List String → Except String (List String)
  | [] => Except.ok []
  | a :: as =>
    match f a with
    | Except.error e => Except.error e
    | Except.ok b =>
      match mapExcept f as with
      | Except.error e => Except.error e
      | Except.ok bs => Except.ok (b :: bs)

/-- One result position of `get_balance_batch` (line 95):
`balance / (10 ** decimals) if isinstance(balance, int) else 0`. -/
def entryValue (d : Nat) (r : Except String Int) : ℚ :=
  match r with
  | Except.ok b => (b : ℚ) / 10 ^ d
  | Except.error _ => 0

/-- `get_balance_batch` (lines 90-95): fetch decimals once, build one
`balanceOf` task per address (checksumming eagerly, see `mapExcept`), gather
the tasks with `return_exceptions=True`, and degrade failed positions to `0`. -/
def get_balance_batch (c : Chain) (addresses : List String) (st : ChainState) :
    Except String (List ℚ) × ChainState × List ContractCall :=
  let gd := get_decimals c st
  match gd.1 with
  | Except.error e => (Except.error e, gd.2.1, gd.2.2)
  | Except.ok d =>
    match mapExcept c.checksum addresses with
    | Except.error e => (Except.error e, gd.2.1, gd.2.2)
    | Except.ok cas =>
      (Except.ok (cas.map (fun ca => entryValue d (c.balanceOf ca))), gd.2.1,
        gd.2.2 ++ cas.map ContractCall.balanceOfCall)

/-- One entry of `data["data"]["transactions"]` in an explorer response, with
the three keys the module reads. A key can be absent (`none`); `timeStamp` is
`none` when the key is absent or `int(...)` on it would raise. -/
structure Tx where
  from_addr : Option String
  to_addr : Option String
  timeStamp : Option Int
deriving DecidableEq, Repr

/-- The observable content of one explorer HTTP response: the HTTP status code,
whether the body parses as JSON, and the parsed payload fields the module reads
(`status`, `message`, `error`, `data.transactions`). -/
structure ExplorerResponse where
  httpStatus : Nat
  jsonOk : Bool
  status : String
  message : String
  errorDetail : String
  transactions : List Tx
deriving DecidableEq, Repr

/-- `holders.add(a)` on a Python set, linearised to first-seen order. -/
def insertAddr (l : List String) (a : String) : List String :=
  if a ∈ l then l else l ++ [a]

/-- The loop body of `get_token_holders` (lines 112-116): add the `from` and
`to` fields of one transaction to the holders set, when present. -/
def addTx (l : List String) (tx : Tx) : List String :=
  let l1 := match tx.from_addr with
            | some a => insertAddr l a
            | none => l
  match tx.to_addr with
  | some a => insertAddr l1 a
  | none => l1

/-- `get_token_holders` (lines 97-117): raise on non-200 HTTP status, on a
non-parseable body, and on an application-level failure `status`; otherwise
collect every distinct `from`/`to` address of the transaction list.
(Python iterates a set in unspecified order; the embedding fixes the
first-seen linearisation, which is one admissible order.) -/
def get_token_holders (r : ExplorerResponse) : Except String (List String) :=
  if r.httpStatus ≠ 200 then
    Except.error ("Etherscan V2 API error: HTTP " ++ toString r.httpStatus)
  else if r.jsonOk = false then
    Except.error "Etherscan V2 API error: Failed to parse JSON"
  else if r.status ≠ "success" then
    Except.error ("Etherscan V2 API error: " ++ r.message ++ " - " ++ r.errorDetail)
  else
    Except.ok (r.transactions.foldl addTx [])

/-- Base-10 digit rendering with explicit fuel, so that it is structural
recursion and the kernel can evaluate it. -/
def natReprAux : Nat → Nat → List Char
  | 0, _ => []
  | fuel + 1, n =>
    if n < 10 then [Nat.digitChar n]
    else natReprAux fuel (n / 10) ++ [Nat.digitChar (n % 10)]

/-- Decimal rendering of a natural number (`str(n)` in Python). -/
def natRepr (n : Nat) : String :=
  String.mk (natReprAux (n + 1) n)

/-- Decimal rendering of an integer (`str(n)` / `%d`-style formatting). -/
def intRepr (n : Int) : String :=
  if n < 0 then "-" ++ natRepr (-n).toNat else natRepr n.toNat

/-- Zero-padding to width 2, as `strftime` `%m` / `%d` produce. -/
def pad2 (n : Int) : String :=
  if n < 10 then "0" ++ intRepr n else intRepr n

/-- Days-since-epoch to civil (year, month, day), the standard era-based
calendar algorithm, with floor division matching Python arithmetic. -/
def civilFromDays (z0 : Int) : Int × Int × Int :=
  let z := z0 + 719468
  let era := Int.fdiv z 146097
  let doe := z - era * 146097
  let yoe := Int.fdiv (doe - Int.fdiv doe 1460 + Int.fdiv doe 36524 - Int.fdiv doe 146096) 365
  let y := yoe + era * 400
  let doy := doe - (365 * yoe + Int.fdiv yoe 4 - Int.fdiv yoe 100)
  let mp := Int.fdiv (5 * doy + 2) 153
  let d := doy - Int.fdiv (153 * mp + 2) 5 + 1
  let m := mp + (if mp < 10 then 3 else -9)
  (y + (if m ≤ 2 then 1 else 0), m, d)

/-- `datetime.utcfromtimestamp(ts).strftime("%Y-%m-%d")` (line 134): the UTC
calendar date of a Unix timestamp. (`%Y` is not zero-padded on glibc, `%m` and
`%d` always are.) -/
def formatDate (ts : Int) : String :=
  let c := civilFromDays (Int.fdiv ts 86400)
  intRepr c.1 ++ "-" ++ pad2 c.2.1 ++ "-" ++ pad2 c.2.2

/-- Smallest timestamp `datetime.utcfromtimestamp` accepts (0001-01-01). -/
def minTimestamp : Int := -62135596800

/-- Largest timestamp `datetime.utcfromtimestamp` accepts (9999-12-31 23:59:59). -/
def maxTimestamp : Int := 253402300799

/-- `get_last_transaction_date` (lines 119-134): raise on non-200 HTTP status
and on a non-parseable body; return the marker `"No transactions found"` when
the payload status is not `"success"` or the transaction list is falsy;
otherwise format the first transaction's timestamp. A missing or non-integer
`timeStamp`, or a timestamp outside the `datetime` range, raises. -/
def get_last_transaction_date (r : ExplorerResponse) : Except String String :=
  if r.httpStatus ≠ 200 then
    Except.error ("Etherscan V2 API error: HTTP " ++ toString r.httpStatus)
  else if r.jsonOk = false then
    Except.error "Etherscan V2 API error: Failed to parse JSON"
  else if r.status ≠ "success" ∨ r.transactions = [] then
    Except.ok "No transactions found"
  else
    match r.transactions.head? with
    | none => Except.ok "No transactions found"
    | some tx =>
      match tx.timeStamp with
      | none => Except.error "KeyError: timeStamp"
      | some ts =>
        if ts < minTimestamp ∨ maxTimestamp < ts then
          Except.error "timestamp out of range"
        else Except.ok (formatDate ts)

/-- The ordering used by `address_balance_pairs.sort(key=lambda x: x[1], reverse=True)`
(line 142): descending by balance. -/
def descRel (x y : String × ℚ) : Prop := y.2 ≤ x.2

instance : DecidableRel descRel := fun x y => inferInstanceAs (Decidable (y.2 ≤ x.2))

instance : IsTotal (String × ℚ) descRel := ⟨fun a b => le_total b.2 a.2⟩

instance : IsTrans (String × ℚ) descRel := ⟨fun _ _ _ hab hbc => le_trans hbc hab⟩

/-- Python list slicing `l[:n]` for an arbitrary integer `n`: for `n ≥ 0` the
first `n` elements, for `n < 0` all but the last `-n` elements. -/
def pyTake (n : Int) (l : List α) : List α :=
  if 0 ≤ n then l.take n.toNat else l.take (l.length - (-n).toNat)

/-- Lines 141-143 of `get_top`: pair the truncated holders with their balances,
keep the strictly positive ones, sort descending by balance (Python `sort` is
stable; so is `List.insertionSort`), and slice to `n` again. -/
def rank (n : Int) (holders : List String) (balances : List ℚ) : List (String × ℚ) :=
  pyTake n (List.insertionSort descRel
    ((holders.zip balances).filter (fun p => decide (0 < p.2))))

/-- `get_top` (lines 136-143): fetch the holder candidates, truncate with
`holders[:n]` before fetching any balance, fetch the balances of the truncated
list with `get_balance_batch`, and rank. -/
def get_top (c : Chain) (r : ExplorerResponse) (n : Int) (st : ChainState) :
    Except String (List (String × ℚ)) × ChainState × List ContractCall :=
  match get_token_holders r with
  | Except.error e => (Except.error e, st, [])
  | Except.ok holders0 =>
    let hs := pyTake n holders0
    let gb := get_balance_batch c hs st
    match gb.1 with
    | Except.error e => (Except.error e, gb.2.1, gb.2.2)
    | Except.ok balances => (Except.ok (rank n hs balances), gb.2.1, gb.2.2)

/-- The per-address third component of `get_top_with_transactions` (line 150):
the date string the activity lookup returned, or `"Error"` when it raised
(`date if isinstance(date, str) else "Error"` over a gather with
`return_exceptions=True`). -/
def annotate (r : ExplorerResponse) : String :=
  match get_last_transaction_date r with
  | Except.ok s => s
  | Except.error _ => "Error"

/-- `get_top_with_transactions` (lines 145-150): run `get_top`, then fetch the
last-transaction date for each returned address (the oracle `activity` gives
the explorer response for each address) and zip the annotations on. -/
def get_top_with_transactions (c : Chain) (r : ExplorerResponse) (n : Int)
    (activity : String → ExplorerResponse) (st : ChainState) :
    Except String (List (String × ℚ × String)) × ChainState × List ContractCall :=
  let gt := get_top c r n st
  match gt.1 with
  | Except.error e => (Except.error e, gt.2.1, gt.2.2)
  | Except.ok top =>
    (Except.ok (top.map (fun p => (p.1, p.2, annotate (activity p.1)))), gt.2.1, gt.2.2)

/-- The dictionary `get_token_info` returns (lines 160-165). -/
structure TokenInfo where
  name : String
  symbol : String
  totalSupply : ℚ
  decimals : Nat
deriving DecidableEq, Repr

/-- `get_token_info` (lines 152-165): gather four fresh contract calls —
including a fresh `decimals()` call that bypasses `_decimals_cache` — and build
the metadata dictionary; any failing sub-call fails the whole gather, but all
four coroutines were started. -/
def get_token_info (c : Chain) (st : ChainState) :
    Except String TokenInfo × ChainState × List ContractCall :=
  let calls := [ContractCall.nameCall, ContractCall.symbolCall,
                ContractCall.totalSupplyCall, ContractCall.decimalsCall]
  match c.nameResult, c.symbolResult, c.totalSupplyResult, c.decimalsResult with
  | Except.ok nm, Except.ok sy, Except.ok ts, Except.ok d =>
    (Except.ok ⟨nm, sy, (ts : ℚ) / 10 ^ d, d⟩, st, calls)
  | Except.error e, _, _, _ => (Except.error e, st, calls)
  | _, Except.error e, _, _ => (Except.error e, st, calls)
  | _, _, Except.error e, _ => (Except.error e, st, calls)
  | _, _, _, Except.error e => (Except.error e, st, calls)

/-! Concrete fixtures used by witnesses and counterexamples. -/

/-- A healthy chain: `0xA` and `0xB` are well-formed addresses, `0xA` holds a
raw balance of 10, the `balanceOf` RPC call for `0xB` fails, decimals is 0. -/
def cw : Chain where
  is_address := fun a => a = "0xA" || a = "0xB"
  checksum := fun a => if a = "0xA" || a = "0xB" then Except.ok a else
    Except.error "when sending a str, it must be a hex string"
  decimalsResult := Except.ok 0
  balanceOf := fun a => if a = "0xA" then Except.ok 10 else Except.error "execution reverted"
  nameResult := Except.ok "Token"
  symbolResult := Except.ok "TOK"
  totalSupplyResult := Except.ok 1000

/-- Chain for the `get_balance_batch` counterexample: `0xX` is a valid address
with raw balance 10 and decimals 0; everything else fails the checksum. -/
def cx1 : Chain where
  is_address := fun a => a = "0xX"
  checksum := fun a => if a = "0xX" then Except.ok "0xX" else
    Except.error "when sending a str, it must be a hex string"
  decimalsResult := Except.ok 0
  balanceOf := fun a => if a = "0xX" then Except.ok 10 else Except.error "unknown address"
  nameResult := Except.ok "Token"
  symbolResult := Except.ok "TOK"
  totalSupplyResult := Except.ok 1000

/-- Explorer response carrying an application-level failure status in an
otherwise well-formed payload (HTTP 200, parseable JSON). -/
def rx2 : ExplorerResponse where
  httpStatus := 200
  jsonOk := true
  status := "0"
  message := "NOTOK"
  errorDetail := "Max rate limit reached"
  transactions := [⟨some "0xA", some "0xB", some 1625097600⟩]

/-- Chain whose candidates `0xA`, `0xB`, `0xC` hold raw balances 5, 4, 3
(decimals 0); every address is well-formed. -/
def cx3 : Chain where
  is_address := fun _ => true
  checksum := fun a => Except.ok a
  decimalsResult := Except.ok 0
  balanceOf := fun a =>
    if a = "0xA" then Except.ok 5
    else if a = "0xB" then Except.ok 4
    else Except.ok 3
  nameResult := Except.ok "Token"
  symbolResult := Except.ok "TOK"
  totalSupplyResult := Except.ok 1000

/-- Successful explorer response whose transactions yield the candidate list
`["0xA", "0xB", "0xC"]`. -/
def rx3 : ExplorerResponse where
  httpStatus := 200
  jsonOk := true
  status := "success"
  message := "OK"
  errorDetail := ""
  transactions := [⟨some "0xA", some "0xB", some 1625097600⟩,
                   ⟨some "0xC", none, some 1625097600⟩]

/-- Chain for the truncation example: candidates `0xX`, `0xY`, `0xZ` hold raw
balances 5, 0, 3 (decimals 0). -/
def cx4 : Chain where
  is_address := fun _ => true
  checksum := fun a => Except.ok a
  decimalsResult := Except.ok 0
  balanceOf := fun a =>
    if a = "0xX" then Except.ok 5
    else if a = "0xY" then Except.ok 0
    else Except.ok 3
  nameResult := Except.ok "Token"
  symbolResult := Except.ok "TOK"
  totalSupplyResult := Except.ok 1000

/-- Successful explorer response whose transactions yield the candidate list
`["0xX", "0xY", "0xZ"]`. -/
def rx4 : ExplorerResponse where
  httpStatus := 200
  jsonOk := true
  status := "success"
  message := "OK"
  errorDetail := ""
  transactions := [⟨some "0xX", some "0xY", some 1625097600⟩,
                   ⟨some "0xZ", none, some 1625097600⟩]

/-- Successful per-address activity response with one transaction dated
2021-07-01 UTC. -/
def rx6good : ExplorerResponse where
  httpStatus := 200
  jsonOk := true
  status := "success"
  message := "OK"
  errorDetail := ""
  transactions := [⟨some "0xX", some "0xZ", some 1625097600⟩]

/-- Failed per-address activity response: HTTP 500. -/
def rx6bad : ExplorerResponse where
  httpStatus := 500
  jsonOk := false
  status := ""
  message := ""
  errorDetail := ""
  transactions := []

/-- Activity oracle: the lookup for `0xX` succeeds, every other one raises. -/
def act6 : String → ExplorerResponse :=
  fun a => if a = "0xX" then rx6good else rx6bad

/-- Chain whose `decimals()` RPC call fails. -/
def cbad : Chain where
  is_address := fun _ => true
  checksum := fun a => Except.ok a
  decimalsResult := Except.error "rpc endpoint unreachable"
  balanceOf := fun _ => Except.error "rpc endpoint unreachable"
  nameResult := Except.error "rpc endpoint unreachable"
  symbolResult := Except.error "rpc endpoint unreachable"
  totalSupplyResult := Except.error "rpc endpoint unreachable"

/-- Chain for the token-info witness: metadata calls succeed with decimals 2,
total supply 1000. -/
def cw10 : Chain where
  is_address := fun _ => true
  checksum := fun a => Except.ok a
  decimalsResult := Except.ok 2
  balanceOf := fun _ => Except.ok 0
  nameResult := Except.ok "Token"
  symbolResult := Except.ok "TOK"
  totalSupplyResult := Except.ok 1000

/-! Helper lemmas. -/

/-- A successful eager checksum pass preserves the number of addresses. -/
theorem mapExcept_ok_length {f : String → Except String String} :
    ∀ {l bs : List String}, mapExcept f l = Except.ok bs → bs.length = l.length := by
  intro l
  induction l with
  | nil =>
    intro bs h
    simp [mapExcept] at h
    simp [← h]
  | cons a as ih =>
    intro bs h
    unfold mapExcept at h
    cases hfa : f a with
    | error e => rw [hfa] at h; simp at h
    | ok b =>
      rw [hfa] at h
      cases hrec : mapExcept f as with
      | error e => rw [hrec] at h; simp at h
      | ok bs0 =>
        rw [hrec] at h
        simp at h
        simp [← h, ih hrec]

/-! Claim theorems. -/

/-- C1 counterexample: the claim asserts `get_balance_batch(["not-an-address", X])`
with X valid of balance 10 (decimals 0) yields `[0, 10]`. In the code,
`Web3.to_checksum_address` runs eagerly while building the task list and its
exception propagates, so the whole call raises instead of returning a list. -/
theorem C1_counterexample :
    (get_balance_batch cx1 ["not-an-address", "0xX"] ⟨none⟩).1 =
      Except.error "when sending a str, it must be a hex string" ∧
    (get_balance_batch cx1 ["not-an-address", "0xX"] ⟨none⟩).1 ≠
      Except.ok [(0 : ℚ), 10] := by
  constructor
  · decide
  · decide

/-- C1 (amended): for a batch in which every address passes the eager checksum,
`get_balance_batch` returns a list of the same length whose every position is
that address's raw balance divided by `10 ^ decimals` when its lookup
succeeded and `0` when its lookup failed, each position depending only on its
own address's lookup outcome; a syntactically invalid address instead fails
the whole call. -/
theorem C1_batch_degrade (c : Chain) (addresses : List String) (st : ChainState)
    (d : Nat) (st1 : ChainState) (t1 : List ContractCall) (cas : List String)
    (hd : get_decimals c st = (Except.ok d, st1, t1))
    (hcs : mapExcept c.checksum addresses = Except.ok cas) :
    (get_balance_batch c addresses st).1 =
      Except.ok (cas.map (fun ca => entryValue d (c.balanceOf ca))) ∧
    (cas.map (fun ca => entryValue d (c.balanceOf ca))).length = addresses.length := by
  constructor
  · simp [get_balance_batch, hd, hcs]
  · simp [mapExcept_ok_length hcs]

/-- C1 witness: on `["0xA", "0xB"]` with `0xA` holding 10, the lookup of `0xB`
failing and decimals 0, the batch returns one value per address, degraded per
position. -/
theorem C1_batch_degrade_witness :
    (get_decimals cw ⟨none⟩ = (Except.ok 0, ⟨some 0⟩, [ContractCall.decimalsCall])) ∧
    (mapExcept cw.checksum ["0xA", "0xB"] = Except.ok ["0xA", "0xB"]) ∧
    ((get_balance_batch cw ["0xA", "0xB"] ⟨none⟩).1 =
        Except.ok (["0xA", "0xB"].map (fun ca => entryValue 0 (cw.balanceOf ca))) ∧
      (["0xA", "0xB"].map (fun ca => entryValue 0 (cw.balanceOf ca))).length =
        (["0xA", "0xB"] : List String).length) :=
  ⟨by decide, by decide,
    C1_batch_degrade cw ["0xA", "0xB"] ⟨none⟩ 0 ⟨some 0⟩ [ContractCall.decimalsCall]
      ["0xA", "0xB"] (by decide) (by decide)⟩

/-- C2 counterexample: an HTTP-200, parseable payload whose application-level
status is a failure makes `get_last_transaction_date` return the
`"No transactions found"` marker rather than raise, so the failure is not
distinguishable from the empty-transaction-set marker — even though the
sibling `get_token_holders` raises an `Etherscan V2 API error` on the very
same payload. -/
theorem C2_counterexample :
    get_last_transaction_date rx2 = Except.ok "No transactions found" ∧
    rx2.status ≠ "success" ∧
    get_token_holders rx2 =
      Except.error "Etherscan V2 API error: NOTOK - Max rate limit reached" := by
  refine ⟨by decide, by decide, by decide⟩

/-- C2 (amended): whenever the explorer response has HTTP status 200 and a
parseable body but an application-level failure status, `get_last_transaction_date`
returns the `"No transactions found"` marker — the same value as for a
successful response with an empty transaction set; it raises only for non-200
HTTP status or an unparseable body. -/
theorem C2_failure_marker (r : ExplorerResponse) (h200 : r.httpStatus = 200)
    (hjson : r.jsonOk = true) (hfail : r.status ≠ "success") :
    get_last_transaction_date r = Except.ok "No transactions found" := by
  simp [get_last_transaction_date, h200, hjson, hfail]

/-- C2 witness: the amended behaviour at the concrete failure payload `rx2`. -/
theorem C2_failure_marker_witness :
    (rx2.httpStatus = 200 ∧ rx2.jsonOk = true ∧ rx2.status ≠ "success") ∧
    get_last_transaction_date rx2 = Except.ok "No transactions found" :=
  ⟨⟨by decide, by decide, by decide⟩,
    C2_failure_marker rx2 (by decide) (by decide) (by decide)⟩

/-- C5: for every batch of well-formed addresses whose decimals fetch succeeds,
`get_balance_batch` returns a list of exactly the input length whose `i`-th
element is determined by the `i`-th input address's own lookup outcome — the
oracle `c.balanceOf` fixes each underlying call's result independently of any
completion order, and `asyncio.gather` delivers results in task order. -/
theorem C5_batch_order (c : Chain) (addresses : List String) (st : ChainState)
    (d : Nat) (st1 : ChainState) (t1 : List ContractCall) (cas : List String)
    (hd : get_decimals c st = (Except.ok d, st1, t1))
    (hcs : mapExcept c.checksum addresses = Except.ok cas) :
    ∃ bs, (get_balance_batch c addresses st).1 = Except.ok bs ∧
      bs.length = addresses.length ∧
      ∀ (i : Nat) (h1 : i < bs.length) (h2 : i < cas.length),
        bs[i] = entryValue d (c.balanceOf cas[i]) := by
  refine ⟨cas.map (fun ca => entryValue d (c.balanceOf ca)), ?_, ?_, ?_⟩
  · simp [get_balance_batch, hd, hcs]
  · simp [mapExcept_ok_length hcs]
  · intro i h1 h2
    simp

/-- C5 witness: the two-address batch `["0xA", "0xB"]` on `cw`. -/
theorem C5_batch_order_witness :
    (get_decimals cw ⟨none⟩ = (Except.ok 0, ⟨some 0⟩, [ContractCall.decimalsCall])) ∧
    (mapExcept cw.checksum ["0xA", "0xB"] = Except.ok ["0xA", "0xB"]) ∧
    (∃ bs, (get_balance_batch cw ["0xA", "0xB"] ⟨none⟩).1 = Except.ok bs ∧
      bs.length = (["0xA", "0xB"] : List String).length ∧
      ∀ (i : Nat) (h1 : i < bs.length) (h2 : i < (["0xA", "0xB"] : List String).length),
        bs[i] = entryValue 0 (cw.balanceOf (["0xA", "0xB"] : List String)[i])) :=
  ⟨by decide, by decide,
    C5_batch_order cw ["0xA", "0xB"] ⟨none⟩ 0 ⟨some 0⟩ [ContractCall.decimalsCall]
      ["0xA", "0xB"] (by decide) (by decide)⟩

/-- C7: for a well-formed address whose lookups succeed, `get_balance` returns
the raw `balanceOf` result divided by `10 ^ decimals`, with decimals obtained
through the memoising `get_decimals`; for a malformed address it raises
`Invalid address` with an empty network trace, i.e. before any network call. -/
theorem C7_balance (c : Chain) (a : String) (st : ChainState) :
    (∀ ca b d st1 t1, c.is_address a = true → c.checksum a = Except.ok ca →
      c.balanceOf ca = Except.ok b → get_decimals c st = (Except.ok d, st1, t1) →
      get_balance c a st =
        (Except.ok ((b : ℚ) / 10 ^ d), st1, ContractCall.balanceOfCall ca :: t1)) ∧
    (c.is_address a = false →
      get_balance c a st = (Except.error "Invalid address", st, [])) := by
  constructor
  · intro ca b d st1 t1 hia hcs hbal hgd
    simp [get_balance, hia, hcs, hbal, hgd]
  · intro hia
    simp [get_balance, hia]

/-- C7 witness: `0xA` (raw balance 10, decimals 0) and the malformed `zzz`. -/
theorem C7_balance_witness :
    (cw.is_address "0xA" = true ∧ cw.checksum "0xA" = Except.ok "0xA" ∧
      cw.balanceOf "0xA" = Except.ok 10 ∧
      get_decimals cw ⟨none⟩ = (Except.ok 0, ⟨some 0⟩, [ContractCall.decimalsCall]) ∧
      get_balance cw "0xA" ⟨none⟩ =
        (Except.ok ((10 : ℚ) / 10 ^ 0), ⟨some 0⟩,
          [ContractCall.balanceOfCall "0xA", ContractCall.decimalsCall])) ∧
    (cw.is_address "zzz" = false ∧
      get_balance cw "zzz" ⟨none⟩ = (Except.error "Invalid address", ⟨none⟩, [])) := by
  refine ⟨⟨by decide, by decide, by decide, by decide, ?_⟩, ⟨by decide, ?_⟩⟩
  · exact (C7_balance cw "0xA" ⟨none⟩).1 "0xA" 10 0 ⟨some 0⟩ [ContractCall.decimalsCall]
      (by decide) (by decide) (by decide) (by decide)
  · exact (C7_balance cw "zzz" ⟨none⟩).2 (by decide)

/-- C8: the decimals cache is written only by a successful fetch. With a
populated cache `get_decimals` answers from the cache with no contract call;
after any successful call the cache holds the returned value and every later
call — whatever its own fetch oracle — answers from the cache with no
contract call; with an empty cache a failed fetch raises and leaves the cache
unset, while a successful fetch issues exactly one call and caches its value. -/
theorem C8_decimals_cache (c c2 : Chain) (st : ChainState) :
    (∀ d, st.decimalsCache = some d → get_decimals c st = (Except.ok d, st, [])) ∧
    (∀ d st1 t1, get_decimals c st = (Except.ok d, st1, t1) →
      st1.decimalsCache = some d ∧ get_decimals c2 st1 = (Except.ok d, st1, [])) ∧
    (∀ e, st.decimalsCache = none → c.decimalsResult = Except.error e →
      get_decimals c st = (Except.error e, st, [ContractCall.decimalsCall])) ∧
    (∀ d, st.decimalsCache = none → c.decimalsResult = Except.ok d →
      get_decimals c st = (Except.ok d, ⟨some d⟩, [ContractCall.decimalsCall])) := by
  refine ⟨?_, ?_, ?_, ?_⟩
  · intro d h
    simp [get_decimals, h]
  · intro d st1 t1 h
    unfold get_decimals at h
    cases hc : st.decimalsCache with
    | some d0 =>
      rw [hc] at h
      simp at h
      obtain ⟨h1, h2, h3⟩ := h
      subst h1
      subst h2
      exact ⟨hc, by simp [get_decimals, hc]⟩
    | none =>
      rw [hc] at h
      cases hd : c.decimalsResult with
      | ok dv =>
        rw [hd] at h
        simp at h
        obtain ⟨h1, h2, h3⟩ := h
        subst h1
        subst h2
        exact ⟨rfl, by simp [get_decimals]⟩
      | error e =>
        rw [hd] at h
        simp at h
  · intro e h1 h2
    simp [get_decimals, h1, h2]
  · intro d h1 h2
    simp [get_decimals, h1, h2]

/-- Decomposition of a successful `get_top` run into its pipeline stages. -/
theorem get_top_ok {c : Chain} {r : ExplorerResponse} {n : Int} {st : ChainState}
    {l : List (String × ℚ)} (hok : (get_top c r n st).1 = Except.ok l) :
    ∃ holders0 balances,
      get_token_holders r = Except.ok holders0 ∧
      (get_balance_batch c (pyTake n holders0) st).1 = Except.ok balances ∧
      l = rank n (pyTake n holders0) balances := by
  unfold get_top at hok
  cases hh : get_token_holders r with
  | error e =>
    simp only [hh] at hok
    simp at hok
  | ok holders0 =>
    simp only [hh] at hok
    cases hb : (get_balance_batch c (pyTake n holders0) st).1 with
    | error e =>
      simp only [hb] at hok
      simp at hok
    | ok balances =>
      simp only [hb] at hok
      simp at hok
      exact ⟨holders0, balances, rfl, hb, hok.symm⟩

/-- Python slicing returns a sublist. -/
theorem pyTake_sublist (n : Int) (l : List α) : List.Sublist (pyTake n l) l := by
  unfold pyTake
  split <;> exact List.take_sublist _ _

/-- Python slicing commutes with `map`. -/
theorem pyTake_map (f : α → β) (n : Int) (l : List α) :
    (pyTake n l).map f = pyTake n (l.map f) := by
  unfold pyTake
  split <;> simp [List.map_take]

/-- `l[:n]` has at most `n.toNat` elements when `n ≥ 0`. -/
theorem pyTake_length_le_toNat (n : Int) (hn : 0 ≤ n) (l : List α) :
    (pyTake n l).length ≤ n.toNat := by
  rw [pyTake, if_pos hn]
  simp [List.length_take]

/-- `l[:n]` has at most `n` elements for a natural `n`. -/
theorem pyTake_nat_length_le (n : Nat) (l : List α) : (pyTake (n : Int) l).length ≤ n := by
  have h := pyTake_length_le_toNat (n : Int) (by positivity) l
  simpa using h

/-- Adding to the Python set keeps the linearised holder list duplicate-free. -/
theorem insertAddr_nodup {l : List String} {a : String} (h : l.Nodup) :
    (insertAddr l a).Nodup := by
  unfold insertAddr
  split
  · exact h
  · next hna =>
    rw [List.nodup_append]
    exact ⟨h, List.nodup_singleton a, by simpa using hna⟩

/-- Processing one transaction keeps the holder list duplicate-free. -/
theorem addTx_nodup {l : List String} (tx : Tx) (h : l.Nodup) : (addTx l tx).Nodup := by
  unfold addTx
  cases hf : tx.from_addr <;> cases ht : tx.to_addr <;> simp [hf, ht] <;>
    first
      | exact h
      | exact insertAddr_nodup h
      | exact insertAddr_nodup (insertAddr_nodup h)

/-- The full holders fold keeps the list duplicate-free. -/
theorem foldl_addTx_nodup (txs : List Tx) :
    ∀ l : List String, l.Nodup → (txs.foldl addTx l).Nodup := by
  induction txs with
  | nil => intro l h; simpa using h
  | cons t ts ih => intro l h; simpa using ih (addTx l t) (addTx_nodup t h)

/-- The candidate list `get_token_holders` returns is duplicate-free: the
addresses pass through a Python set. -/
theorem get_token_holders_nodup {r : ExplorerResponse} {hs : List String}
    (h : get_token_holders r = Except.ok hs) : hs.Nodup := by
  unfold get_token_holders at h
  split_ifs at h
  simp at h
  rw [← h]
  exact foldl_addTx_nodup _ [] List.nodup_nil

/-- The first components of a zip form a sublist of the left list. -/
theorem map_fst_zip_sublist : ∀ (l1 : List α) (l2 : List β),
    List.Sublist ((l1.zip l2).map Prod.fst) l1
  | [], _ => by simp
  | a :: as, [] => by simp
  | a :: as, b :: bs => by
    simpa using List.Sublist.cons₂ a (map_fst_zip_sublist as bs)

/-- Membership in the ranked result implies membership in the filtered pairs. -/
theorem mem_rank {n : Int} {hs : List String} {bs : List ℚ} {p : String × ℚ}
    (hp : p ∈ rank n hs bs) :
    p ∈ (hs.zip bs).filter (fun q => decide (0 < q.2)) := by
  have hp1 : p ∈ List.insertionSort descRel ((hs.zip bs).filter (fun q => decide (0 < q.2))) :=
    (pyTake_sublist n _).subset hp
  exact (List.perm_insertionSort descRel _).subset hp1

/-- C3 counterexample: the claim quantifies over every integer `n`, but
`get_top(-1)` uses Python negative slicing and here returns one record, which
is more than `n = -1`. -/
theorem C3_counterexample :
    (get_top cx3 rx3 (-1) ⟨none⟩).1 = Except.ok [("0xA", (5 : ℚ))] ∧
    ¬ ((([("0xA", (5 : ℚ))] : List (String × ℚ)).length : Int) ≤ (-1 : Int)) := by
  constructor
  · simp [get_top, get_balance_batch, get_decimals, mapExcept, entryValue, get_token_holders,
      rx3, cx3, addTx, insertAddr, pyTake, rank, List.insertionSort, List.orderedInsert,
      descRel]
    decide
  · decide

/-- C3 (amended): for every nonnegative integer `n` and every outcome of the
candidate and balance lookups, a successful `get_top(n)` returns at most `n`
records, every returned record has balance strictly greater than 0, and the
records are sorted descending by balance. -/
theorem C3_top_bounded_sorted (c : Chain) (r : ExplorerResponse) (st : ChainState)
    (n : Int) (hn : 0 ≤ n) (l : List (String × ℚ))
    (hok : (get_top c r n st).1 = Except.ok l) :
    (l.length : Int) ≤ n ∧ (∀ p ∈ l, 0 < p.2) ∧ List.Sorted descRel l := by
  obtain ⟨h0, bs, hh, hb, hl⟩ := get_top_ok hok
  subst hl
  refine ⟨?_, ?_, ?_⟩
  · have h2 : ((rank n (pyTake n h0) bs).length : Int) ≤ (n.toNat : Int) :=
      Int.ofNat_le.mpr (pyTake_length_le_toNat n hn _)
    rwa [Int.toNat_of_nonneg hn] at h2
  · intro p hp
    have h3 := List.of_mem_filter (mem_rank hp)
    exact of_decide_eq_true h3
  · have hsorted : List.Sorted descRel
        (List.insertionSort descRel
          (((pyTake n h0).zip bs).filter (fun q => decide (0 < q.2)))) :=
      List.sorted_insertionSort descRel _
    exact List.Pairwise.sublist (pyTake_sublist n _) hsorted

/-- C3 witness: `get_top(2)` on the three-candidate fixture returns the two
records `(0xA, 5), (0xB, 4)` — bounded, positive and sorted. -/
theorem C3_top_bounded_sorted_witness :
    ((0 : Int) ≤ 2 ∧
      (get_top cx3 rx3 2 ⟨none⟩).1 = Except.ok [("0xA", (5 : ℚ)), ("0xB", (4 : ℚ))]) ∧
    ((([("0xA", (5 : ℚ)), ("0xB", (4 : ℚ))] : List (String × ℚ)).length : Int) ≤ 2 ∧
      (∀ p ∈ [("0xA", (5 : ℚ)), ("0xB", (4 : ℚ))], 0 < p.2) ∧
      List.Sorted descRel [("0xA", (5 : ℚ)), ("0xB", (4 : ℚ))]) := by
  have hok : (get_top cx3 rx3 2 ⟨none⟩).1 = Except.ok [("0xA", (5 : ℚ)), ("0xB", (4 : ℚ))] := by
    simp [get_top, get_balance_batch, get_decimals, mapExcept, entryValue, get_token_holders,
      rx3, cx3, addTx, insertAddr, pyTake, rank, List.insertionSort, List.orderedInsert,
      descRel]
    decide
  exact ⟨⟨by decide, hok⟩, C3_top_bounded_sorted cx3 rx3 ⟨none⟩ 2 (by decide) _ hok⟩

/-- Does a contract call fetch a balance? -/
def isBalanceCall : ContractCall → Bool
  | ContractCall.balanceOfCall _ => true
  | _ => false

/-- `get_decimals` never issues a balance call. -/
theorem gd_trace_no_balance (c : Chain) (st : ChainState) :
    ((get_decimals c st).2.2).countP isBalanceCall = 0 := by
  unfold get_decimals
  cases hc : st.decimalsCache with
  | none => cases hd : c.decimalsResult <;> simp [List.countP_cons, isBalanceCall]
  | some d => simp

/-- Tasks built by the batch comprehension are all balance calls. -/
theorem countP_balance_map (cas : List String) :
    (cas.map ContractCall.balanceOfCall).countP isBalanceCall = cas.length := by
  induction cas with
  | nil => simp
  | cons a as ih => simp [List.countP_cons, isBalanceCall, ih]

/-- `get_balance_batch` issues at most one balance call per input address. -/
theorem batch_trace_count (c : Chain) (addrs : List String) (st : ChainState) :
    ((get_balance_batch c addrs st).2.2).countP isBalanceCall ≤ addrs.length := by
  unfold get_balance_batch
  cases hd : (get_decimals c st).1 with
  | error e =>
    simp only [hd]
    simpa using Nat.le_of_eq (gd_trace_no_balance c st) |>.trans (Nat.zero_le _)
  | ok d =>
    simp only [hd]
    cases hcs : mapExcept c.checksum addrs with
    | error e =>
      simp only [hcs]
      simpa using Nat.le_of_eq (gd_trace_no_balance c st) |>.trans (Nat.zero_le _)
    | ok cas =>
      simp only [hcs]
      rw [List.countP_append, gd_trace_no_balance c st, countP_balance_map cas]
      simp [mapExcept_ok_length hcs]

/-- C4: `get_top(n)` truncates the candidate list with `holders[:n]` before
fetching any balance: its network trace holds at most `n` balance calls, and
every returned record's address lies in the first-`n` prefix of the candidate
list. The concrete `[X, Y, Z]` example is the witness. -/
theorem C4_truncate_before_fetch (c : Chain) (r : ExplorerResponse) (st : ChainState)
    (n : Nat) (holders0 : List String) (l : List (String × ℚ))
    (hh : get_token_holders r = Except.ok holders0)
    (hok : (get_top c r (n : Int) st).1 = Except.ok l) :
    ((get_top c r (n : Int) st).2.2).countP isBalanceCall ≤ n ∧
    ∀ p ∈ l, p.1 ∈ pyTake (n : Int) holders0 := by
  constructor
  · unfold get_top
    simp only [hh]
    cases hb : (get_balance_batch c (pyTake (n : Int) holders0) st).1 with
    | error e =>
      simp only [hb]
      exact le_trans (batch_trace_count c _ st) (pyTake_nat_length_le n holders0)
    | ok balances =>
      simp only [hb]
      exact le_trans (batch_trace_count c _ st) (pyTake_nat_length_le n holders0)
  · intro p hp
    obtain ⟨h0x, bs, hhx, hbx, hl⟩ := get_top_ok hok
    rw [hh] at hhx
    have hx : holders0 = h0x := by simpa using hhx
    subst hx
    subst hl
    have hp2 : p ∈ (pyTake (n : Int) holders0).zip bs :=
      List.mem_of_mem_filter (mem_rank hp)
    exact (List.of_mem_zip hp2).1

/-- C4 witness: candidates `[0xX, 0xY, 0xZ]` with balances `[5, 0, 3]`
(decimals 0) and `n = 3`: the result is `[(0xX, 5), (0xZ, 3)]`, the
zero-balance `0xY` excluded, at most 3 balance calls issued, all returned
addresses in the prefix. -/
theorem C4_truncate_before_fetch_witness :
    (get_token_holders rx4 = Except.ok ["0xX", "0xY", "0xZ"]) ∧
    ((get_top cx4 rx4 (3 : Int) ⟨none⟩).1 =
      Except.ok [("0xX", (5 : ℚ)), ("0xZ", (3 : ℚ))]) ∧
    (((get_top cx4 rx4 (3 : Int) ⟨none⟩).2.2).countP isBalanceCall ≤ 3 ∧
      ∀ p ∈ [("0xX", (5 : ℚ)), ("0xZ", (3 : ℚ))],
        p.1 ∈ pyTake (3 : Int) ["0xX", "0xY", "0xZ"]) := by
  have hh : get_token_holders rx4 = Except.ok ["0xX", "0xY", "0xZ"] := by decide
  have hok : (get_top cx4 rx4 (3 : Int) ⟨none⟩).1 =
      Except.ok [("0xX", (5 : ℚ)), ("0xZ", (3 : ℚ))] := by
    simp [get_top, get_balance_batch, get_decimals, mapExcept, entryValue, get_token_holders,
      rx4, cx4, addTx, insertAddr, pyTake, rank, List.insertionSort, List.orderedInsert,
      descRel]
    decide
  exact ⟨hh, hok, C4_truncate_before_fetch cx4 rx4 ⟨none⟩ 3 _ _ hh hok⟩

/-- C9: every successful `get_top` result carries pairwise-distinct addresses,
because the candidates were deduplicated through a set in `get_token_holders`
and the pipeline only truncates, zips, filters, sorts and slices. -/
theorem C9_distinct_addresses (c : Chain) (r : ExplorerResponse) (st : ChainState)
    (n : Int) (l : List (String × ℚ)) (hok : (get_top c r n st).1 = Except.ok l) :
    (l.map Prod.fst).Nodup := by
  obtain ⟨h0, bs, hh, hb, hl⟩ := get_top_ok hok
  subst hl
  have nd1 : (pyTake n h0).Nodup :=
    List.Nodup.sublist (pyTake_sublist n h0) (get_token_holders_nodup hh)
  have h2 : List.Sublist
      ((((pyTake n h0).zip bs).filter (fun q => decide (0 < q.2))).map Prod.fst)
      (pyTake n h0) :=
    List.Sublist.trans (List.Sublist.map Prod.fst (List.filter_sublist _))
      (map_fst_zip_sublist (pyTake n h0) bs)
  have nd2 := List.Nodup.sublist h2 nd1
  have hperm := List.Perm.map Prod.fst
    (List.perm_insertionSort descRel
      (((pyTake n h0).zip bs).filter (fun q => decide (0 < q.2))))
  have nd3 := hperm.nodup_iff.mpr nd2
  show ((pyTake n (List.insertionSort descRel _)).map Prod.fst).Nodup
  rw [pyTake_map]
  exact List.Nodup.sublist (pyTake_sublist n _) nd3

/-- C9 witness: `get_top(3)` on the three-candidate fixture returns three
records with pairwise-distinct addresses. -/
theorem C9_distinct_addresses_witness :
    ((get_top cx3 rx3 3 ⟨none⟩).1 =
      Except.ok [("0xA", (5 : ℚ)), ("0xB", (4 : ℚ)), ("0xC", (3 : ℚ))]) ∧
    (([("0xA", (5 : ℚ)), ("0xB", (4 : ℚ)), ("0xC", (3 : ℚ))].map Prod.fst).Nodup) := by
  have hok : (get_top cx3 rx3 3 ⟨none⟩).1 =
      Except.ok [("0xA", (5 : ℚ)), ("0xB", (4 : ℚ)), ("0xC", (3 : ℚ))] := by
    simp [get_top, get_balance_batch, get_decimals, mapExcept, entryValue, get_token_holders,
      rx3, cx3, addTx, insertAddr, pyTake, rank, List.insertionSort, List.orderedInsert,
      descRel]
    decide
  exact ⟨hok, C9_distinct_addresses cx3 rx3 ⟨none⟩ 3 _ hok⟩

/-- Every formatted date contains a hyphen, so it is never the `"Error"`
sentinel. -/
theorem formatDate_ne_error (ts : Int) : formatDate ts ≠ "Error" := by
  intro h
  have hd : '-' ∈ (formatDate ts).data := by
    unfold formatDate
    simp [String.data_append]
  rw [h] at hd
  exact absurd hd (by decide)

/-- A successful `get_last_transaction_date` yields either the
`"No transactions found"` marker or a formatted calendar date. -/
theorem gltd_ok_cases {r : ExplorerResponse} {s : String}
    (h : get_last_transaction_date r = Except.ok s) :
    s = "No transactions found" ∨ ∃ ts, s = formatDate ts := by
  unfold get_last_transaction_date at h
  split at h
  · simp at h
  · split at h
    · simp at h
    · split at h
      · simp at h
        exact Or.inl h.symm
      · split at h
        · simp at h
          exact Or.inl h.symm
        · split at h
          · simp at h
          · split at h
            · simp at h
            · simp at h
              exact Or.inr ⟨_, h.symm⟩

/-- C6: `get_top_with_transactions(n)` returns exactly `get_top(n)`'s
(address, balance) pairs in the same order, each annotated with a third
component that is `"Error"` exactly when that address's activity lookup
raised, and otherwise is the lookup's returned string — either the
`"No transactions found"` marker or a formatted `YYYY-MM-DD` date. -/
theorem C6_enrich (c : Chain) (r : ExplorerResponse) (st : ChainState) (n : Int)
    (act : String → ExplorerResponse) (tops : List (String × ℚ))
    (htop : (get_top c r n st).1 = Except.ok tops) :
    (get_top_with_transactions c r n act st).1 =
      Except.ok (tops.map (fun p => (p.1, p.2, annotate (act p.1)))) ∧
    (tops.map (fun p => (p.1, p.2, annotate (act p.1)))).map (fun t => (t.1, t.2.1)) = tops ∧
    ∀ p ∈ tops,
      ((annotate (act p.1) = "Error") ↔
        ∃ e, get_last_transaction_date (act p.1) = Except.error e) ∧
      (annotate (act p.1) ≠ "Error" →
        annotate (act p.1) = "No transactions found" ∨
          ∃ ts, annotate (act p.1) = formatDate ts) := by
  refine ⟨?_, ?_, ?_⟩
  · simp [get_top_with_transactions, htop]
  · simp
    have hcomp : ((fun t : String × ℚ × String => (t.1, t.2.1)) ∘
        (fun p : String × ℚ => (p.1, p.2, annotate (act p.1)))) = id := by
      funext p
      rfl
    rw [hcomp, List.map_id]
  · intro p hp
    constructor
    · constructor
      · intro he
        cases hg : get_last_transaction_date (act p.1) with
        | ok s =>
          rw [annotate, hg] at he
          rcases gltd_ok_cases hg with h1 | ⟨ts, h2⟩
          · rw [h1] at he
            exact absurd he (by decide)
          · rw [h2] at he
            exact absurd he (formatDate_ne_error ts)
        | error e => exact ⟨e, rfl⟩
      · rintro ⟨e, hg⟩
        simp [annotate, hg]
    · intro hne
      cases hg : get_last_transaction_date (act p.1) with
      | ok s =>
        rw [annotate, hg]
        rw [annotate, hg] at hne
        exact gltd_ok_cases hg
      | error e =>
        rw [annotate, hg] at hne
        simp at hne

/-- C6 witness: on the `[0xX, 0xY, 0xZ]` fixture with `n = 3`, the activity
lookup for `0xX` succeeds with a transaction dated 2021-07-01 and the lookup
for `0xZ` raises (HTTP 500): the enriched result is
`[(0xX, 5, "2021-07-01"), (0xZ, 3, "Error")]`. -/
theorem C6_enrich_witness :
    ((get_top cx4 rx4 3 ⟨none⟩).1 = Except.ok [("0xX", (5 : ℚ)), ("0xZ", (3 : ℚ))]) ∧
    ((get_top_with_transactions cx4 rx4 3 act6 ⟨none⟩).1 =
      Except.ok ([("0xX", (5 : ℚ)), ("0xZ", (3 : ℚ))].map
        (fun p => (p.1, p.2, annotate (act6 p.1))))) ∧
    ((get_top_with_transactions cx4 rx4 3 act6 ⟨none⟩).1 =
      Except.ok [("0xX", (5 : ℚ), "2021-07-01"), ("0xZ", (3 : ℚ), "Error")]) := by
  have htop : (get_top cx4 rx4 3 ⟨none⟩).1 =
      Except.ok [("0xX", (5 : ℚ)), ("0xZ", (3 : ℚ))] := by
    simp [get_top, get_balance_batch, get_decimals, mapExcept, entryValue, get_token_holders,
      rx4, cx4, addTx, insertAddr, pyTake, rank, List.insertionSort, List.orderedInsert,
      descRel]
    decide
  refine ⟨htop, (C6_enrich cx4 rx4 ⟨none⟩ 3 act6 _ htop).1, ?_⟩
  rw [(C6_enrich cx4 rx4 ⟨none⟩ 3 act6 _ htop).1]
  simp [annotate, act6, rx6good, rx6bad, get_last_transaction_date]
  decide

/-- C8 witness: a populated cache answers without a call; after the first
successful fetch on an empty cache, a later call on a chain whose fetch oracle
now fails still answers 0 from the cache with no contract call; a failed first
fetch raises and leaves the cache empty; a successful first fetch issues one
call and caches its value. -/
theorem C8_decimals_cache_witness :
    ((⟨some 7⟩ : ChainState).decimalsCache = some 7 ∧
      get_decimals cw ⟨some 7⟩ = (Except.ok 7, ⟨some 7⟩, [])) ∧
    (get_decimals cw ⟨none⟩ = (Except.ok 0, ⟨some 0⟩, [ContractCall.decimalsCall]) ∧
      ((⟨some 0⟩ : ChainState).decimalsCache = some 0 ∧
        get_decimals cbad ⟨some 0⟩ = (Except.ok 0, ⟨some 0⟩, []))) ∧
    ((⟨none⟩ : ChainState).decimalsCache = none ∧
      cbad.decimalsResult = Except.error "rpc endpoint unreachable" ∧
      get_decimals cbad ⟨none⟩ =
        (Except.error "rpc endpoint unreachable", ⟨none⟩, [ContractCall.decimalsCall])) ∧
    (cw.decimalsResult = Except.ok 0 ∧
      get_decimals cw ⟨none⟩ = (Except.ok 0, ⟨some 0⟩, [ContractCall.decimalsCall])) := by
  refine ⟨⟨by decide, ?_⟩, ⟨by decide, ?_⟩, ⟨by decide, by decide, ?_⟩, ⟨by decide, ?_⟩⟩
  · exact (C8_decimals_cache cw cbad ⟨some 7⟩).1 7 (by decide)
  · exact (C8_decimals_cache cw cbad ⟨none⟩).2.1 0 ⟨some 0⟩ [ContractCall.decimalsCall]
      (by decide)
  · exact (C8_decimals_cache cbad cw ⟨none⟩).2.2.1 "rpc endpoint unreachable"
      (by decide) (by decide)
  · exact (C8_decimals_cache cw cbad ⟨none⟩).2.2.2 0 (by decide) (by decide)

/-- C10: `get_token_info` leaves the decimals cache exactly as it found it, it
always issues a fresh `decimals()` contract call, and when the four gathered
calls succeed its result is built from the freshly fetched decimals value,
whatever the cache holds. -/
theorem C10_token_info_frame (c : Chain) (st : ChainState) :
    (get_token_info c st).2.1 = st ∧
    ContractCall.decimalsCall ∈ (get_token_info c st).2.2 ∧
    (∀ nm sy ts d, c.nameResult = Except.ok nm → c.symbolResult = Except.ok sy →
      c.totalSupplyResult = Except.ok ts → c.decimalsResult = Except.ok d →
      (get_token_info c st).1 = Except.ok ⟨nm, sy, (ts : ℚ) / 10 ^ d, d⟩) := by
  refine ⟨?_, ?_, ?_⟩
  · cases h1 : c.nameResult <;> cases h2 : c.symbolResult <;>
      cases h3 : c.totalSupplyResult <;> cases h4 : c.decimalsResult <;>
      simp [get_token_info, h1, h2, h3, h4]
  · cases h1 : c.nameResult <;> cases h2 : c.symbolResult <;>
      cases h3 : c.totalSupplyResult <;> cases h4 : c.decimalsResult <;>
      simp [get_token_info, h1, h2, h3, h4]
  · intro nm sy ts d h1 h2 h3 h4
    simp [get_token_info, h1, h2, h3, h4]

/-- C10 witness: with the cache holding 7, `get_token_info` on a chain whose
fresh decimals is 2 uses 2 and leaves the cache at 7. -/
theorem C10_token_info_frame_witness :
    ((get_token_info cw10 ⟨some 7⟩).2.1 = (⟨some 7⟩ : ChainState) ∧
      ContractCall.decimalsCall ∈ (get_token_info cw10 ⟨some 7⟩).2.2 ∧
      (get_token_info cw10 ⟨some 7⟩).1 =
        Except.ok ⟨"Token", "TOK", (1000 : ℚ) / 10 ^ 2, 2⟩) ∧
    (cw10.decimalsResult = Except.ok 2) := by
  refine ⟨⟨(C10_token_info_frame cw10 ⟨some 7⟩).1, (C10_token_info_frame cw10 ⟨some 7⟩).2.1, ?_⟩,
    by decide⟩
  exact (C10_token_info_frame cw10 ⟨some 7⟩).2.2 "Token" "TOK" 1000 2
    (by decide) (by decide) (by decide) (by decide)

end DeNet
